import Mathlib

/-!
Verification of the TariffTracker report pipeline (src/app.py) against its
natural-language specification.  The Python functions are shallowly embedded:
parsed JSON values become the inductive type Json, Python dictionary access,
truthiness, string conversion and iteration are modelled explicitly, and code
that can raise a Python exception returns Except String.  External library
calls (pandas DataFrame.to_html, python-docx add_paragraph) are modelled by
their documented observable contract on the data that reaches them.
-/

/-- Model of a parsed JSON value as produced by json.loads in app.py.
Numbers are modelled as integers (the claims only exercise strings, lists,
objects and null; no claim depends on float formatting). -/
inductive Json where
  | null
  | str (s : String)
  | num (n : Int)
  | bool (b : Bool)
  | arr (xs : List Json)
  | obj (fields : List (String × Json))

/-- Python truthiness of a JSON value: None, empty string, 0, False, empty
list and empty dict are falsy, everything else truthy. -/
def jsonTruthy : Json → Bool
  | Json.null => false
  | Json.str s => !s.isEmpty
  | Json.num n => n != 0
  | Json.bool b => b
  | Json.arr xs => !xs.isEmpty
  | Json.obj fs => !fs.isEmpty

/-- Python str() conversion as used by f-string interpolation in app.py.
Lists and dicts never reach an f-string in the claims; they are given a
fixed rendering here. -/
def pyStr : Json → String
  | Json.null => "None"
  | Json.str s => s
  | Json.num n => toString n
  | Json.bool b => if b then "True" else "False"
  | Json.arr _ => "[...]"
  | Json.obj _ => "{...}"

/-- Python dict.get(key, default).  json.loads produces objects with unique
keys, so first-match lookup is faithful. -/
def dictGet (fields : List (String × Json)) (key : String) (default : Json) : Json :=
  match fields.lookup key with
  | some v => v
  | none => default

/-- Python truthiness of an optional credential string (None or empty string
is falsy). -/
def optStrTruthy : Option String → Bool
  | none => false
  | some s => !s.isEmpty

/-- Python iteration over a JSON value, as in list comprehensions of app.py.
Lists iterate their elements, strings iterate their characters (each yielding
a one-character string), dicts iterate their keys; None, ints and bools raise
TypeError. -/
def toIterList : Json → Except String (List Json)
  | Json.arr xs => Except.ok xs
  | Json.str s => Except.ok (s.toList.map (fun c => Json.str (String.singleton c)))
  | Json.obj fs => Except.ok (fs.map (fun kv => Json.str kv.1))
  | Json.null => Except.error "TypeError: NoneType object is not iterable"
  | Json.num _ => Except.error "TypeError: int object is not iterable"
  | Json.bool _ => Except.error "TypeError: bool object is not iterable"

/-- Escape of one character exactly as html.escape (quote=True) rewrites it:
ampersand, angle brackets, double quote and the apostrophe character
(code point 39). -/
def htmlEscapeChar (c : Char) : String :=
  if c = '&' then "&amp;"
  else if c = '<' then "&lt;"
  else if c = '>' then "&gt;"
  else if c = '"' then "&quot;"
  else if c.toNat = 39 then "&#x27;"
  else String.singleton c

/-- Model of html.escape on a string.  The sequential str.replace calls of
the library are equivalent to this character-wise map because no replacement
string contains a character that a later replace rewrites. -/
def htmlEscape (s : String) : String :=
  String.join (s.toList.map htmlEscapeChar)

/-- Model of applying html.escape to a JSON value: only strings have the
replace method, any other value (in particular None) raises AttributeError. -/
def pyHtmlEscape : Json → Except String String
  | Json.str s => Except.ok (htmlEscape s)
  | _ => Except.error "AttributeError: object has no attribute replace"

/-- Python x or y on strings: the left operand when truthy, else the right. -/
def pyOrStr (x y : String) : String :=
  if x.isEmpty then y else x

/-- Left-to-right effectful map over a list, stopping at the first raised
exception, as a Python list comprehension does. -/
def mapExcept (f : α → Except String β) : List α → Except String (List β)
  | [] => Except.ok []
  | x :: xs => do
      let y ← f x
      let ys ← mapExcept f xs
      Except.ok (y :: ys)

/-- Python str.join on a list of strings: the items in order with the
separator between consecutive items. -/
def joinSep (sep : String) : List String → String
  | [] => ""
  | [x] => x
  | x :: xs => x ++ sep ++ joinSep sep xs

/-- Python str.join over list items that must all be strings (join raises
TypeError on a non-string item, unlike f-string interpolation). -/
def pyJoinStrs (sep : String) (items : List Json) : Except String String := do
  let strs ← mapExcept (fun j =>
    match j with
    | Json.str s => Except.ok s
    | _ => Except.error "TypeError: sequence item: expected str instance") items
  Except.ok (joinSep sep strs)

/-- Occurrence of pat as a contiguous substring of s, via list infixes. -/
def occursIn (pat s : String) : Prop :=
  pat.toList <:+: s.toList

instance (pat s : String) : Decidable (occursIn pat s) :=
  List.decidableInfix pat.toList s.toList

/-- Column list of pandas.DataFrame built from a list of records: the union
of the record keys in order of first appearance. -/
def df_columns (rows : List (List (String × Json))) : List String :=
  rows.foldl (fun cols r =>
    r.foldl (fun cs kv => if cs.contains kv.1 then cs else cs ++ [kv.1]) cols) []

/-- The rename map applied to impact-table columns in app.py. -/
def rename_col (c : String) : String :=
  if c = "metric" then "Metric"
  else if c = "impact_value" then "Impact"
  else if c = "unit" then "Unit"
  else if c = "source_quote" then "Source Quote"
  else c

/-- Cell text of the impact DataFrame after fillna: a missing key or an
explicit null becomes the string NA, any other value is shown via str(). -/
def df_cell (r : List (String × Json)) (c : String) : String :=
  match r.lookup c with
  | none => "NA"
  | some Json.null => "NA"
  | some v => pyStr v

/-- Apply html escaping only when the to_html escape flag is set. -/
def escIf (esc : Bool) (s : String) : String :=
  if esc then htmlEscape s else s

/-- Model of DataFrame.to_html(index=False, escape=esc, border=0) for the
impact tables, after the rename and fillna steps of app.py.  Cell text is
escaped if and only if esc holds; insignificant whitespace of the real
markup is not modelled. -/
def df_to_html (esc : Bool) (rows : List (List (String × Json))) : String :=
  let cols := df_columns rows
  "<table border=\"0\" class=\"dataframe\"><thead><tr>"
    ++ String.join (cols.map (fun c => "<th>" ++ escIf esc (rename_col c) ++ "</th>"))
    ++ "</tr></thead><tbody>"
    ++ String.join (rows.map (fun r =>
        "<tr>" ++ String.join (cols.map (fun c => "<td>" ++ escIf esc (df_cell r c) ++ "</td>")) ++ "</tr>"))
    ++ "</tbody></table>"

/-- Record rows of a DataFrame built from a JSON value: a list of objects
gives one row per object (a scalar element becomes a single column named 0,
as pandas does for a list of scalars); a bare dict gives one row; any other
value makes the DataFrame constructor raise. -/
def df_rows : Json → Except String (List (List (String × Json)))
  | Json.arr xs => Except.ok (xs.map (fun x =>
      match x with
      | Json.obj f => f
      | v => [("0", v)]))
  | Json.obj f => Except.ok [f]
  | _ => Except.error "ValueError: DataFrame constructor not properly called"

/-- The isinstance(impacts, dict) coercion of display_impact_table. -/
def wrap_if_dict (j : Json) : Json :=
  match j with
  | Json.obj f => Json.arr [Json.obj f]
  | v => v

/-- The impacts if isinstance(impacts, list) else [impacts] coercion used by
generate_html_report and generate_word_report. -/
def wrap_if_not_list (j : Json) : Json :=
  match j with
  | Json.arr xs => Json.arr xs
  | v => Json.arr [v]

/-- Placeholder card emitted by display_impact_table for falsy impacts. -/
def placeholder_card (title : String) : String :=
  "<div class=\"report-card\"><h3>" ++ title
    ++ "</h3><p><i>No specific financial impacts from tariffs were mentioned in the document.</i></p></div>"

/-- Embedding of display_impact_table (app.py lines 187-214): falsy impacts
give the placeholder card, a dict is wrapped into a one-element list, and the
DataFrame is rendered with escape=False inside the report card. -/
def display_impact_table (title : String) (impacts : Json) : Except String String :=
  if !(jsonTruthy impacts) then
    Except.ok (placeholder_card title)
  else do
    let rows ← df_rows (wrap_if_dict impacts)
    Except.ok ("<div class=\"report-card\"><h3>" ++ title ++ "</h3>" ++ df_to_html false rows ++ "</div>")

/-- Embedding of the strategy_text construction of display_tariff_report
(app.py lines 235-242): one item is used directly, two are joined by and,
three or more are comma-joined with a trailing and before the last item.
An empty list would raise IndexError in the source (the call is guarded by
a truthiness check).  The join of the leading items requires string values,
as str.join does; a dict-valued list is approximated by its key list. -/
def strategy_text : List Json → Except String String
  | [] => Except.error "IndexError: list index out of range"
  | [x] => Except.ok (pyStr x)
  | [x, y] => Except.ok (pyStr x ++ " and " ++ pyStr y)
  | xs => do
      let j ← pyJoinStrs ", " xs.dropLast
      Except.ok (j ++ ", and " ++ pyStr (xs.getLastD Json.null))

/-- The sentence template wrapped around strategy_text in app.py line 244. -/
def mitigation_paragraph (t : String) : String :=
  "To manage these impacts, the company is employing several strategies, including " ++ t ++ "."

/-- Embedding of display_tariff_report (app.py lines 168-252).  The result is
the list of emitted output blocks (header line, then markdown cards), or the
Python exception that interrupts rendering.  A falsy analysis gives only the
warning notice. -/
def display_tariff_report (company_name : String) (analysis : Json) : Except String (List String) :=
  if !(jsonTruthy analysis) then
    Except.ok ["No analysis data to display for " ++ company_name ++ "."]
  else
    match analysis with
    | Json.obj fields => do
        let headerLine := "Tariff Impact Analysis: " ++ pyStr (dictGet fields "company_name" (Json.str company_name))
        let sentimentEsc ← pyHtmlEscape (dictGet fields "overall_sentiment" (Json.str "N/A"))
        let summaryEsc ← pyHtmlEscape (dictGet fields "summary" (Json.str "No summary provided."))
        let summaryBlock := "<div class=\"report-card\"><h3>Executive Summary</h3><p><strong>Overall Sentiment on Tariffs:</strong> "
          ++ sentimentEsc ++ "</p><p>" ++ summaryEsc ++ "</p></div>"
        let qBlock ← display_impact_table "Quarterly Financial Impact" (dictGet fields "quarterly_impact" Json.null)
        let fBlock ← display_impact_table "Forward Guidance Impact" (dictGet fields "forward_guidance_impact" Json.null)
        let quals := dictGet fields "qualitative_impacts" Json.null
        let qualBlocks ←
          if jsonTruthy quals then do
            let items ← toIterList quals
            let paragraph ← pyJoinStrs " " items
            pure ["<div class=\"report-card\"><h3>Qualitative Impacts</h3><p>" ++ htmlEscape paragraph ++ "</p></div>"]
          else pure ([] : List String)
        let strategies := dictGet fields "mitigation_strategies" Json.null
        let stratBlocks ←
          if jsonTruthy strategies then do
            let items ← toIterList strategies
            let t ← strategy_text items
            pure ["<div class=\"report-card\"><h3>Mitigation Strategies</h3><p>" ++ htmlEscape (mitigation_paragraph t) ++ "</p></div>"]
          else pure ([] : List String)
        Except.ok ([headerLine, summaryBlock, qBlock, fBlock] ++ qualBlocks ++ stratBlocks)
    | _ => Except.error "AttributeError: object has no attribute get"

/-- One row of the cross-company comparison table. -/
structure CompRow where
  company : String
  period : String
  summary : String
  mitigation : String
deriving DecidableEq, Repr

/-- The metric: value fragment built for each impact entry in
create_comparison_table; i.get is only available on a dict. -/
def impact_pair_summary (i : Json) : Except String String :=
  match i with
  | Json.obj f =>
      Except.ok (pyStr (dictGet f "metric" (Json.str "N/A")) ++ ": "
        ++ pyStr (dictGet f "impact_value" (Json.str "N/A")))
  | _ => Except.error "AttributeError: object has no attribute get"

/-- Embedding of one iteration of the row loop of create_comparison_table
(app.py lines 257-271).  A falsy analysis is skipped (no row); otherwise the
quarterly and guidance impacts are read with default empty list, a bare dict
is wrapped, both summary fragments are built, the two summary lines are kept
only when the corresponding list is nonempty and joined with a br tag, and
the mitigation cell is a bullet list or the text Not specified. -/
def create_comparison_row (company_key : String) (analysis : Json) (period_source : String) (year : Int) :
    Except String (Option CompRow) :=
  if !(jsonTruthy analysis) then
    Except.ok none
  else
    match analysis with
    | Json.obj fields =>
        match toIterList (wrap_if_dict (dictGet fields "quarterly_impact" (Json.arr []))),
            toIterList (wrap_if_dict (dictGet fields "forward_guidance_impact" (Json.arr []))) with
        | Except.error e, _ => Except.error e
        | _, Except.error e => Except.error e
        | Except.ok q_impacts, Except.ok f_impacts =>
            match mapExcept impact_pair_summary q_impacts,
                mapExcept impact_pair_summary f_impacts with
            | Except.error e, _ => Except.error e
            | _, Except.error e => Except.error e
            | Except.ok qparts, Except.ok fparts =>
                let q_summary := pyOrStr (joinSep "; " qparts) "Not specified"
                let f_summary := pyOrStr (joinSep "; " fparts) "Not specified"
                let parts :=
                  (if q_impacts.isEmpty then [] else ["Q2 Impact: " ++ q_summary])
                    ++ (if f_impacts.isEmpty then []
                        else ["FY" ++ toString (year + 1) ++ " Guidance: " ++ f_summary])
                let total_summary := pyOrStr (joinSep "<br>" parts) "No specific impact mentioned."
                let mit := dictGet fields "mitigation_strategies" (Json.arr [])
                match (if jsonTruthy mit then
                    (toIterList mit).map (fun items =>
                      "<ul>" ++ String.join (items.map (fun s => "<li>" ++ pyStr s ++ "</li>")) ++ "</ul>")
                  else Except.ok "Not specified") with
                | Except.error e => Except.error e
                | Except.ok mitigation =>
                    Except.ok (some
                      { company := "<strong>" ++ pyStr (dictGet fields "company_name" (Json.str company_key)) ++ "</strong>"
                        period := period_source
                        summary := total_summary
                        mitigation := mitigation })
    | _ => Except.error "AttributeError: object has no attribute get"

/-- Rendering of the comparison DataFrame with escape=False: every cell
reaches the markup verbatim. -/
def comparison_table_html (rows : List CompRow) : String :=
  "<table border=\"0\" class=\"dataframe\"><thead><tr><th>Company</th><th>Period / Source</th><th>Tariff Impact Summary</th><th>Mitigation</th></tr></thead><tbody>"
    ++ String.join (rows.map (fun r =>
        "<tr><td>" ++ r.company ++ "</td><td>" ++ r.period ++ "</td><td>" ++ r.summary
          ++ "</td><td>" ++ r.mitigation ++ "</td></tr>"))
    ++ "</tbody></table>"

/-- Embedding of create_comparison_table (app.py lines 254-278): build one
row per truthy analysis, and either the info notice (no rows) or the
comparison card holding the escape=False table. -/
def create_comparison_table (all_analyses : List (String × Json)) (period_source : String) (year : Int) :
    Except String String := do
  let rows ← all_analyses.foldlM (fun acc ca => do
    let r ← create_comparison_row ca.1 ca.2 period_source year
    match r with
    | some row => pure (acc ++ [row])
    | none => pure acc) ([] : List CompRow)
  if rows.isEmpty then
    Except.ok "No data available for comparison."
  else
    Except.ok ("<div class=\"report-card\"><h3>Comparison Summary</h3>" ++ comparison_table_html rows ++ "</div>")

/-- Placeholder paragraph of the impact sections in generate_html_report
(its wording differs from the display placeholder). -/
def html_placeholder_card (title : String) : String :=
  "<div class=\"report-card\"><h3>" ++ title
    ++ "</h3><p><i>No specific financial impacts from tariffs were mentioned.</i></p></div>"

/-- Embedding of one impact section of generate_html_report (app.py lines
310-318): falsy impacts give the placeholder card, otherwise any non-list is
wrapped in a one-element list and rendered with escape=False. -/
def html_impact_section (title : String) (impacts : Json) : Except String String :=
  if !(jsonTruthy impacts) then
    Except.ok (html_placeholder_card title)
  else do
    let rows ← df_rows (wrap_if_not_list impacts)
    Except.ok ("<div class=\"report-card\"><h3>" ++ title ++ "</h3>" ++ df_to_html false rows ++ "</div>")

/-- Embedding of the one-company body of generate_html_report (app.py lines
304-331): heading, escaped executive summary, both impact sections, and the
escaped qualitative and mitigation bullet lists. -/
def html_company_section (company : String) (analysis : Json) : Except String String :=
  match analysis with
  | Json.obj fields => do
      let headerPart := "<h2>Tariff Impact Analysis: " ++ pyStr (dictGet fields "company_name" (Json.str company)) ++ "</h2>"
      let sentimentEsc ← pyHtmlEscape (dictGet fields "overall_sentiment" (Json.str "N/A"))
      let summaryEsc ← pyHtmlEscape (dictGet fields "summary" (Json.str "No summary provided."))
      let execPart := "<div class=\"report-card\"><h3>Executive Summary</h3><p><strong>Overall Sentiment on Tariffs:</strong> "
        ++ sentimentEsc ++ "</p><p>" ++ summaryEsc ++ "</p></div>"
      let qPart ← html_impact_section "Quarterly Financial Impact" (dictGet fields "quarterly_impact" Json.null)
      let fPart ← html_impact_section "Forward Guidance Impact" (dictGet fields "forward_guidance_impact" Json.null)
      let quals := dictGet fields "qualitative_impacts" Json.null
      let qualPart ←
        if jsonTruthy quals then do
          let items ← toIterList quals
          let lis ← mapExcept pyHtmlEscape items
          pure ("<div class=\"report-card\"><h3>Qualitative Impacts</h3><ul>"
            ++ String.join (lis.map (fun s => "<li>" ++ s ++ "</li>")) ++ "</ul></div>")
        else pure ""
      let strategies := dictGet fields "mitigation_strategies" Json.null
      let stratPart ←
        if jsonTruthy strategies then do
          let items ← toIterList strategies
          let lis ← mapExcept pyHtmlEscape items
          pure ("<div class=\"report-card\"><h3>Mitigation Strategies</h3><ul>"
            ++ String.join (lis.map (fun s => "<li>" ++ s ++ "</li>")) ++ "</ul></div>")
        else pure ""
      Except.ok (headerPart ++ execPart ++ qPart ++ fPart ++ qualPart ++ stratPart ++ "<hr>")
  | _ => Except.error "AttributeError: object has no attribute get"

/-- Embedding of generate_html_report (app.py lines 280-333): fixed header,
then one section per truthy analysis in insertion order.  The period_source
and year parameters of the source function are unused in its body. -/
def generate_html_report (all_analyses : List (String × Json)) (logo_base64_string : String) :
    Except String String := do
  let body ← all_analyses.foldlM (fun acc ca =>
    if !(jsonTruthy ca.2) then pure acc
    else do
      let s ← html_company_section ca.1 ca.2
      pure (acc ++ s)) ""
  Except.ok ("<html><head><title>Tariff Impact Report</title></head><body><div class=\"aranca-header\"><div class=\"aranca-title\">Tariff Impact Tracker</div><div class=\"aranca-logo\"><img src=\"data:image/png;base64,"
    ++ logo_base64_string ++ "\" alt=\"Aranca Logo\"></div></div>" ++ body ++ "</body></html>")

/-- Model of python-docx add_paragraph(text): a falsy text (None, empty
string, 0, False) yields an empty paragraph, a string is inserted, any other
truthy value raises when used as run text. -/
def add_paragraph_text (v : Json) : Except String String :=
  match v with
  | Json.str s => Except.ok s
  | v => if jsonTruthy v then Except.error "TypeError: run text must be str" else Except.ok ""

/-- Embedding of the executive-summary lines that generate_word_report emits
for one company (app.py lines 340-343): heading, section title, the
sentiment line built by f-string interpolation, and the summary paragraph. -/
def word_summary_lines (company : String) (fields : List (String × Json)) : Except String (List String) := do
  let summaryText ← add_paragraph_text (dictGet fields "summary" (Json.str "No summary provided."))
  Except.ok
    ["Analysis for: " ++ pyStr (dictGet fields "company_name" (Json.str company)),
     "Executive Summary",
     "Overall Sentiment on Tariffs: " ++ pyStr (dictGet fields "overall_sentiment" (Json.str "N/A")),
     summaryText]

/-- Outcome of text extraction for one uploaded PDF: the returned text, the
error notices shown, and how many pages the loop visited before returning. -/
structure ExtractResult where
  text : String
  errors : List String
  pagesAttempted : Nat
deriving DecidableEq, Repr

/-- Page loop of extract_text_from_pdf: each page read either yields its text
or raises.  The whole loop sits inside a single try block, so the first
raising page ends the loop; the accumulated text before it is kept. -/
def extract_pages : List (Except String String) → String × Option String × Nat
  | [] => ("", none, 0)
  | Except.error e :: _ => ("", some e, 1)
  | Except.ok t :: rest =>
      let r := extract_pages rest
      (t ++ "\n" ++ r.1, r.2.1, r.2.2 + 1)

/-- Embedding of extract_text_from_pdf (app.py lines 116-125).  The input is
none when fitz.open itself raises, otherwise the list of page-read outcomes
in document order.  Any exception is caught, reported via st.error, and the
text accumulated so far is returned. -/
def extract_text_from_pdf (doc : Option (List (Except String String))) (fileName : String) : ExtractResult :=
  match doc with
  | none => { text := "", errors := ["An error occurred while reading " ++ fileName], pagesAttempted := 0 }
  | some pages =>
      let r := extract_pages pages
      { text := r.1
        errors := match r.2.1 with
          | some e => ["An error occurred while reading " ++ fileName ++ ": " ++ e]
          | none => []
        pagesAttempted := r.2.2 }

/-- Startup configuration state: whether the Streamlit secrets store can be
read at all, and the two optional credentials it holds. -/
structure Secrets where
  storeReadable : Bool
  deepseekKey : Option String
  fmpKey : Option String

/-- Result of the startup block of app.py (lines 66-71). -/
inductive StartupResult where
  | halted
  | running (deepseekKey : Option String) (fmpKey : Option String)
deriving DecidableEq

/-- Embedding of the API key setup (app.py lines 66-71): st.secrets.get with
a default never raises for a missing section or key, so the except branch
(st.stop) only runs when reading the secrets store itself raises
FileNotFoundError; otherwise the process continues with whatever optional
key values were found. -/
def startup (s : Secrets) : StartupResult :=
  if s.storeReadable then StartupResult.running s.deepseekKey s.fmpKey
  else StartupResult.halted

/-- Result of one external call: the value produced and whether a network
request was actually issued. -/
structure CallResult (α : Type) where
  result : Option α
  requested : Bool
deriving DecidableEq, Repr

/-- Possible outcomes of the FMP transcript request, abstracting the
network: a transport or HTTP error, or a parsed JSON payload. -/
inductive FmpOutcome where
  | requestError (msg : String)
  | payload (data : Json)

/-- Embedding of get_transcript_from_fmp (app.py lines 94-114): with a falsy
credential the function returns None before building the request; otherwise
one request is issued and a missing list head, missing content key, or
request error each produce None with a notice. -/
def get_transcript_from_fmp (apiKey : Option String) (outcome : FmpOutcome) : CallResult Json :=
  if !(optStrTruthy apiKey) then
    { result := none, requested := false }
  else
    match outcome with
    | FmpOutcome.requestError _ => { result := none, requested := true }
    | FmpOutcome.payload data =>
        match data with
        | Json.arr (Json.obj f :: _) =>
            match f.lookup "content" with
            | some v => { result := some v, requested := true }
            | none => { result := none, requested := true }
        | _ => { result := none, requested := true }

/-- Possible outcomes of the DeepSeek chat completion call: a transport or
HTTP error, a response whose envelope or nested JSON cannot be parsed, or a
successfully parsed analysis object. -/
inductive ServiceOutcome where
  | requestError (msg : String)
  | badResponse (msg : String)
  | success (analysis : Json)

/-- Python whitespace characters recognised by str.strip for ASCII input. -/
def isPySpace (c : Char) : Bool :=
  c = ' ' || c = '\t' || c = '\n' || c = '\r' || c.toNat = 11 || c.toNat = 12

/-- The first n characters of a string, as a Python slice takes them
(code points, stopping at the end of the string). -/
def strTakeChars (s : String) (n : Nat) : String :=
  String.mk (s.toList.take n)

/-- The prompt sent to the extraction service embeds the first 40000
characters of the input text between fixed instruction text. -/
def deepseek_prompt (text_content : String) : String :=
  "As a specialized financial analyst, your task is to analyze the following corporate document. [instructions and JSON specification] Document Text: --- "
    ++ strTakeChars text_content 40000 ++ " ---"

/-- Embedding of analyze_text_with_deepseek (app.py lines 127-165): a falsy
credential or an empty / whitespace-only text returns None without issuing a
request; otherwise one request carries the prompt with the truncated text,
and each failure mode degrades to None. -/
def analyze_text_with_deepseek (apiKey : Option String) (text_content : String)
    (service : String → ServiceOutcome) : CallResult Json :=
  if !(optStrTruthy apiKey) then
    { result := none, requested := false }
  else if text_content.isEmpty || text_content.toList.all isPySpace then
    { result := none, requested := false }
  else
    match service (deepseek_prompt text_content) with
    | ServiceOutcome.requestError _ => { result := none, requested := true }
    | ServiceOutcome.badResponse _ => { result := none, requested := true }
    | ServiceOutcome.success j => { result := some j, requested := true }

/-- Lift the stored value of the session dict: analyze returns either a JSON
object or None, and the loop stores that value under the ticker key. -/
def optToJson : Option Json → Json
  | none => Json.null
  | some j => j

/-- Python dict insertion: overwrite in place if the key exists, else append. -/
def store (m : List (String × Json)) (k : String) (v : Json) : List (String × Json) :=
  if m.any (fun p => p.1 = k) then m.map (fun p => if p.1 = k then (k, v) else p)
  else m ++ [(k, v)]

/-- Embedding of the Fetch and Analyze loop (app.py lines 403-416): the
session results start empty, and for each ticker in order the transcript is
fetched; a truthy transcript leads to one analysis call whose result
(possibly None) is stored under the ticker. -/
def fetch_and_analyze_loop (tickers : List String) (transcript : String → Option String)
    (apiKey : Option String) (service : String → ServiceOutcome) : List (String × Json) :=
  tickers.foldl (fun acc t =>
    match transcript t with
    | none => acc
    | some text =>
        if text.isEmpty then acc
        else store acc t (optToJson (analyze_text_with_deepseek apiKey text service).result)) []

/-- The display loop over the session results (app.py lines 444-446): each
entry is rendered in order; an exception in one report interrupts the run. -/
def render_all : List (String × Json) → Except String (List String)
  | [] => Except.ok []
  | (c, a) :: rest => do
      let bs ← display_tariff_report c a
      let rs ← render_all rest
      Except.ok (bs ++ rs)

/-- Extract the rendered markup from a rendering result (used to state
substring properties of a successful render). -/
def okStr : Except String String → String
  | Except.ok s => s
  | Except.error e => "EXCEPTION: " ++ e

/-- Extract the emitted blocks of a successful report render. -/
def okBlocks : Except String (List String) → List String
  | Except.ok bs => bs
  | Except.error e => ["EXCEPTION: " ++ e]

/-- Impact entry built from a metric and value pair, the shape the claims
exercise. -/
def mkImpact (p : String × String) : Json :=
  Json.obj [("metric", Json.str p.1), ("impact_value", Json.str p.2)]

/-- Concatenation of page texts, each followed by a newline, as the page
loop of extract_text_from_pdf produces when no page fails. -/
def concat_pages : List String → String
  | [] => ""
  | p :: ps => p ++ "\n" ++ concat_pages ps

theorem string_toList_append (a b : String) : (a ++ b).toList = a.toList ++ b.toList := by
  simp [String.toList, String.data_append]

theorem occursIn_append_left (pat a b : String) (h : occursIn pat a) : occursIn pat (a ++ b) := by
  obtain ⟨u, v, huv⟩ := h
  exact ⟨u, v ++ b.toList, by rw [string_toList_append, ← huv]; simp⟩

theorem occursIn_append_right (pat a b : String) (h : occursIn pat b) : occursIn pat (a ++ b) := by
  obtain ⟨u, v, huv⟩ := h
  exact ⟨a.toList ++ u, v, by rw [string_toList_append, ← huv]; simp⟩

theorem occursIn_refl (pat : String) : occursIn pat pat :=
  ⟨[], [], by simp⟩

theorem mapExcept_impact_pairs (l : List (String × String)) :
    mapExcept impact_pair_summary (l.map mkImpact)
      = Except.ok (l.map (fun p => p.1 ++ ": " ++ p.2)) := by
  induction l with
  | nil => rfl
  | cons x xs ih =>
      simp only [List.map, mapExcept, ih, impact_pair_summary, mkImpact, dictGet, pyStr]
      rfl

theorem pyJoinStrs_map_str (sep : String) (l : List String) :
    pyJoinStrs sep (l.map Json.str) = Except.ok (joinSep sep l) := by
  unfold pyJoinStrs
  have h : mapExcept (fun j =>
      match j with
      | Json.str s => Except.ok s
      | _ => (Except.error "TypeError: sequence item: expected str instance" : Except String String)) (l.map Json.str) = Except.ok l := by
    induction l with
    | nil => rfl
    | cons x xs ih =>
        simp only [List.map, mapExcept, ih]
        rfl
  rw [h]
  rfl

theorem str_mid_ne_empty (a m b : String) (hm : m.length ≠ 0) : ¬ (a ++ m ++ b).isEmpty := by
  simp only [String.isEmpty_iff]
  intro h
  have hlen := congrArg String.length h
  simp only [String.length_append, String.length_empty] at hlen
  omega

theorem append_ne_empty_left (a b : String) (ha : a.length ≠ 0) : ¬ (a ++ b).isEmpty := by
  simp only [String.isEmpty_iff]
  intro h
  have hlen := congrArg String.length h
  simp only [String.length_append, String.length_empty] at hlen
  omega

theorem joinSep_ne_empty (sep x : String) (xs : List String) (hx : ¬ x.isEmpty) :
    ¬ (joinSep sep (x :: xs)).isEmpty := by
  cases xs with
  | nil => simpa [joinSep] using hx
  | cons y ys =>
      simp only [String.isEmpty_iff] at hx ⊢
      simp only [joinSep]
      intro h
      apply hx
      have hlen := congrArg String.length h
      simp only [String.length_append, String.length_empty] at hlen
      have hx0 : x.length = 0 := by omega
      cases x with
      | mk d =>
          cases d with
          | nil => rfl
          | cons c cs => simp [String.length] at hx0

theorem pyOrStr_of_ne (x y : String) (h : ¬ x.isEmpty) : pyOrStr x y = x := by
  simp [pyOrStr, h]

theorem isEmpty_map {α β : Type} (f : α → β) (l : List α) : (l.map f).isEmpty = l.isEmpty := by
  cases l <;> rfl

theorem map_str_dropLast (l : List String) : (l.map Json.str).dropLast = l.dropLast.map Json.str := by
  induction l with
  | nil => rfl
  | cons x xs ih =>
      cases xs with
      | nil => rfl
      | cons y ys =>
          simp only [List.map, List.dropLast] at ih ⊢
          rw [← ih]

theorem pyStr_getLastD_map_gen (d : String) (l : List String) :
    pyStr ((l.map Json.str).getLastD (Json.str d)) = l.getLastD d := by
  induction l generalizing d with
  | nil => rfl
  | cons y ys ih =>
      simp only [List.map, List.getLastD_cons]
      exact ih y

theorem pyStr_getLastD_map (x : String) (l : List String) :
    pyStr (((x :: l).map Json.str).getLastD Json.null) = (x :: l).getLastD "" := by
  simp only [List.map, List.getLastD_cons]
  exact pyStr_getLastD_map_gen x l

theorem strategy_text_three_or_more (a b c : String) (rest : List String) :
    strategy_text ((a :: b :: c :: rest).map Json.str)
      = Except.ok (joinSep ", " ((a :: b :: c :: rest).dropLast)
          ++ ", and " ++ (a :: b :: c :: rest).getLastD "") := by
  show (do
      let j ← pyJoinStrs ", " (((a :: b :: c :: rest).map Json.str).dropLast)
      Except.ok (j ++ ", and " ++ pyStr (((a :: b :: c :: rest).map Json.str).getLastD Json.null)))
    = Except.ok (joinSep ", " ((a :: b :: c :: rest).dropLast) ++ ", and " ++ (a :: b :: c :: rest).getLastD "")
  rw [map_str_dropLast, pyJoinStrs_map_str]
  show Except.ok (joinSep ", " ((a :: b :: c :: rest).dropLast)
      ++ ", and " ++ pyStr (((a :: b :: c :: rest).map Json.str).getLastD Json.null)) = _
  rw [pyStr_getLastD_map a (b :: c :: rest)]

theorem extract_pages_all_ok (pages : List String) :
    extract_pages (pages.map Except.ok) = (concat_pages pages, none, pages.length) := by
  induction pages with
  | nil => rfl
  | cons p ps ih => simp only [List.map, extract_pages, concat_pages, ih, List.length_cons]

theorem extract_pages_first_error (good : List String) (e : String) (rest : List (Except String String)) :
    extract_pages (good.map Except.ok ++ Except.error e :: rest)
      = (concat_pages good, some e, good.length + 1) := by
  induction good with
  | nil => rfl
  | cons p ps ih =>
      show (p ++ "\n" ++ (extract_pages (ps.map Except.ok ++ Except.error e :: rest)).1,
        (extract_pages (ps.map Except.ok ++ Except.error e :: rest)).2.1,
        (extract_pages (ps.map Except.ok ++ Except.error e :: rest)).2.2 + 1) = _
      rw [ih]
      rfl

theorem analyze_all_space (apiKey : Option String) (text : String) (service : String → ServiceOutcome)
    (hall : text.toList.all isPySpace = true) :
    analyze_text_with_deepseek apiKey text service = { result := none, requested := false } := by
  simp only [analyze_text_with_deepseek, hall, Bool.or_true, if_true]
  split <;> rfl

set_option maxRecDepth 8192 in
/-- C1 counterexample: the claim says every inserted string value, including
ImpactEntry fields such as metric, reaches the rendered HTML only in escaped
form.  At the concrete input metric = <b>x</b>, the single-company impact
table (rendered through DataFrame.to_html with escape=False) contains the
raw markup as a table cell and contains no escaped form at all, refuting the
claim as stated. -/
theorem impact_table_renders_raw_markup :
    (display_impact_table "Quarterly Financial Impact"
        (Json.arr [Json.obj [("metric", Json.str "<b>x</b>")]])).isOk = true
    ∧ occursIn "<td><b>x</b></td>"
        (okStr (display_impact_table "Quarterly Financial Impact"
          (Json.arr [Json.obj [("metric", Json.str "<b>x</b>")]])))
    ∧ ¬ occursIn "&lt;"
        (okStr (display_impact_table "Quarterly Financial Impact"
          (Json.arr [Json.obj [("metric", Json.str "<b>x</b>")]])))
    ∧ ¬ occursIn "&lt;b&gt;x&lt;/b&gt;"
        (okStr (display_impact_table "Quarterly Financial Impact"
          (Json.arr [Json.obj [("metric", Json.str "<b>x</b>")]]))) := by
  refine ⟨rfl, by decide, by decide, by decide⟩

/-- C1 amended: only the scalar free-text fields pass through html.escape.
For every summary string s the single-company report inserts htmlEscape s,
while an ImpactEntry metric m is spliced verbatim (escape=False) into the
impact-table markup of both the on-page report and the HTML export, and the
comparison row carries the company name verbatim inside strong tags. -/
theorem escaping_scalar_fields_only (s m : String) :
    display_tariff_report "C" (Json.obj
        [("summary", Json.str s),
         ("quarterly_impact", Json.arr [Json.obj [("metric", Json.str m)]])])
      = Except.ok ["Tariff Impact Analysis: C",
          "<div class=\"report-card\"><h3>Executive Summary</h3><p><strong>Overall Sentiment on Tariffs:</strong> "
            ++ htmlEscape "N/A" ++ "</p><p>" ++ htmlEscape s ++ "</p></div>",
          "<div class=\"report-card\"><h3>Quarterly Financial Impact</h3>"
            ++ df_to_html false [[("metric", Json.str m)]] ++ "</div>",
          placeholder_card "Forward Guidance Impact"]
    ∧ df_to_html false [[("metric", Json.str m)]]
        = "<table border=\"0\" class=\"dataframe\"><thead><tr>" ++ "<th>Metric</th>"
            ++ "</tr></thead><tbody>" ++ ("<tr>" ++ ("<td>" ++ m ++ "</td>") ++ "</tr>")
            ++ "</tbody></table>"
    ∧ occursIn m (df_to_html false [[("metric", Json.str m)]])
    ∧ html_impact_section "Quarterly Financial Impact"
          (Json.arr [Json.obj [("metric", Json.str m)]])
        = Except.ok ("<div class=\"report-card\"><h3>Quarterly Financial Impact</h3>"
            ++ df_to_html false [[("metric", Json.str m)]] ++ "</div>")
    ∧ create_comparison_row "K" (Json.obj [("company_name", Json.str s)]) "p" 2024
        = Except.ok (some
            { company := "<strong>" ++ s ++ "</strong>"
              period := "p"
              summary := "No specific impact mentioned."
              mitigation := "Not specified" }) := by
  refine ⟨rfl, rfl, ?_, rfl, rfl⟩
  rw [show df_to_html false [[("metric", Json.str m)]]
      = "<table border=\"0\" class=\"dataframe\"><thead><tr>" ++ "<th>Metric</th>"
        ++ "</tr></thead><tbody>" ++ ("<tr>" ++ ("<td>" ++ m ++ "</td>") ++ "</tr>")
        ++ "</tbody></table>" from rfl]
  apply occursIn_append_left
  apply occursIn_append_right
  apply occursIn_append_left
  apply occursIn_append_right
  apply occursIn_append_left
  apply occursIn_append_right
  exact occursIn_refl m

/-- C2: display_tariff_report crashes with an AttributeError when summary or
overall_sentiment is present with an explicit null (html.escape(None)),
instead of rendering the documented placeholders; the placeholders appear
only when the keys are absent, and the word export shows the f-string text
None rather than N/A for a null sentiment.  This contradicts the spec and
the extraction prompt of the source itself, which instructs the service to
use null for missing information. -/
theorem null_scalar_crashes_rendering :
    display_tariff_report "ACME" (Json.obj [("summary", Json.null)])
      = Except.error "AttributeError: object has no attribute replace"
    ∧ display_tariff_report "ACME"
        (Json.obj [("overall_sentiment", Json.null), ("summary", Json.str "All good.")])
      = Except.error "AttributeError: object has no attribute replace"
    ∧ display_tariff_report "ACME" (Json.obj [("company_name", Json.str "ACME")])
      = Except.ok ["Tariff Impact Analysis: ACME",
          "<div class=\"report-card\"><h3>Executive Summary</h3><p><strong>Overall Sentiment on Tariffs:</strong> "
            ++ htmlEscape "N/A" ++ "</p><p>" ++ htmlEscape "No summary provided." ++ "</p></div>",
          placeholder_card "Quarterly Financial Impact",
          placeholder_card "Forward Guidance Impact"]
    ∧ word_summary_lines "ACME" [("overall_sentiment", Json.null)]
      = Except.ok ["Analysis for: ACME", "Executive Summary",
          "Overall Sentiment on Tariffs: None", "No summary provided."] :=
  ⟨rfl, rfl, rfl, rfl⟩

/-- C3 counterexample: the claim says a failing page does not abort
extraction of the remaining pages.  For a three-page document whose second
page read raises, the loop visits only two pages, the returned text holds
only the first page, and the third page never appears, refuting the claim
as stated. -/
theorem page_failure_skips_remaining_pages :
    (extract_text_from_pdf
        (some [Except.ok "P1", Except.error "bad xref", Except.ok "P3"]) "doc.pdf").pagesAttempted = 2
    ∧ ¬ ((extract_text_from_pdf
        (some [Except.ok "P1", Except.error "bad xref", Except.ok "P3"]) "doc.pdf").pagesAttempted = 3)
    ∧ (extract_text_from_pdf
        (some [Except.ok "P1", Except.error "bad xref", Except.ok "P3"]) "doc.pdf").text = "P1\n"
    ∧ ¬ occursIn "P3"
        (extract_text_from_pdf
          (some [Except.ok "P1", Except.error "bad xref", Except.ok "P3"]) "doc.pdf").text
    ∧ (extract_text_from_pdf
        (some [Except.ok "P1", Except.error "bad xref", Except.ok "P3"]) "doc.pdf").errors
      = ["An error occurred while reading doc.pdf: bad xref"] := by
  refine ⟨rfl, by decide, rfl, by decide, rfl⟩

/-- C3 amended: extraction concatenates each page text followed by a newline
while pages succeed; the first failing page is reported and ends the loop,
returning the text accumulated so far (later pages are not attempted); an
unopenable document reports an error and returns the empty string. -/
theorem extract_text_stops_at_first_bad_page :
    (∀ (name : String) (pages : List String),
      extract_text_from_pdf (some (pages.map Except.ok)) name
        = { text := concat_pages pages, errors := [], pagesAttempted := pages.length })
    ∧ (∀ (name e : String) (good : List String) (rest : List (Except String String)),
      extract_text_from_pdf (some (good.map Except.ok ++ Except.error e :: rest)) name
        = { text := concat_pages good
            errors := ["An error occurred while reading " ++ name ++ ": " ++ e]
            pagesAttempted := good.length + 1 })
    ∧ (∀ name : String,
      extract_text_from_pdf none name
        = { text := "", errors := ["An error occurred while reading " ++ name], pagesAttempted := 0 }) := by
  refine ⟨?_, ?_, fun name => rfl⟩
  · intro name pages
    simp only [extract_text_from_pdf, extract_pages_all_ok]
  · intro name e good rest
    simp only [extract_text_from_pdf, extract_pages_first_error]

/-- C4 counterexample: the claim says a missing credential halts the process
at startup.  With a readable secrets store that lacks the FMP key (or the
DeepSeek key), the startup block completes and the process keeps running,
because dict.get with a default never raises; only an unreadable secrets
store reaches the st.stop branch. -/
theorem missing_credential_startup_continues :
    ¬ (startup { storeReadable := true, deepseekKey := some "k", fmpKey := none }
        = StartupResult.halted)
    ∧ ¬ (startup { storeReadable := true, deepseekKey := none, fmpKey := some "k" }
        = StartupResult.halted) := by
  refine ⟨by decide, by decide⟩

/-- C4 amended: startup halts if and only if the secrets store itself cannot
be read; a missing or empty individual credential leaves the process
running, and instead each client guards its own call, returning None without
issuing any network request when its credential is falsy. -/
theorem startup_halts_only_on_unreadable_store :
    (∀ s : Secrets, startup s = StartupResult.halted ↔ s.storeReadable = false)
    ∧ (∀ outcome : FmpOutcome,
        get_transcript_from_fmp none outcome = { result := none, requested := false })
    ∧ (∀ outcome : FmpOutcome,
        get_transcript_from_fmp (some "") outcome = { result := none, requested := false })
    ∧ (∀ (text : String) (service : String → ServiceOutcome),
        analyze_text_with_deepseek none text service = { result := none, requested := false })
    ∧ (∀ (text : String) (service : String → ServiceOutcome),
        analyze_text_with_deepseek (some "") text service = { result := none, requested := false }) := by
  refine ⟨?_, fun _ => rfl, fun _ => rfl, fun _ _ => rfl, fun _ _ => rfl⟩
  intro s
  cases s with
  | mk r dk fk => cases r <;> simp [startup]

set_option maxRecDepth 16384 in
/-- C5: the mitigation sentence uses a single strategy verbatim, joins two
with and, and joins three or more by commas with a trailing comma-and before
the last; on the concrete inputs of the claim the full rendered sentences
are exactly the specified ones, and the three-strategy sentence appears in
the rendered report block. -/
theorem mitigation_sentence_format (a b c : String) (rest : List String) :
    strategy_text [Json.str a] = Except.ok a
    ∧ strategy_text [Json.str a, Json.str b] = Except.ok (a ++ " and " ++ b)
    ∧ strategy_text ((a :: b :: c :: rest).map Json.str)
        = Except.ok (joinSep ", " ((a :: b :: c :: rest).dropLast)
            ++ ", and " ++ (a :: b :: c :: rest).getLastD "")
    ∧ (strategy_text [Json.str "A"]).map mitigation_paragraph
        = Except.ok "To manage these impacts, the company is employing several strategies, including A."
    ∧ (strategy_text [Json.str "A", Json.str "B"]).map mitigation_paragraph
        = Except.ok "To manage these impacts, the company is employing several strategies, including A and B."
    ∧ (strategy_text [Json.str "A", Json.str "B", Json.str "C"]).map mitigation_paragraph
        = Except.ok "To manage these impacts, the company is employing several strategies, including A, B, and C."
    ∧ occursIn "including A, B, and C."
        (String.join (okBlocks (display_tariff_report "C"
          (Json.obj [("mitigation_strategies", Json.arr [Json.str "A", Json.str "B", Json.str "C"])])))) := by
  refine ⟨rfl, rfl, strategy_text_three_or_more a b c rest, rfl, rfl, rfl, by decide⟩

/-- C6: the comparison-row summary cell joins the Q2 Impact line (omitted
when there are no quarterly impacts) and the FY year+1 Guidance line
(omitted without forward guidance) with a br tag, falling back to the fixed
sentence when both lists are empty; on the concrete claim input the cell is
exactly Q2 Impact: COGS: +5% with no guidance line. -/
theorem comparison_summary_cell (year : Int) (qs fs : List (String × String)) :
    create_comparison_row "X" (Json.obj
      [("quarterly_impact", Json.arr (qs.map mkImpact)),
       ("forward_guidance_impact", Json.arr (fs.map mkImpact))]) "p" year
    = Except.ok (some
        { company := "<strong>X</strong>"
          period := "p"
          summary :=
            if qs.isEmpty && fs.isEmpty then "No specific impact mentioned."
            else joinSep "<br>"
              ((if qs.isEmpty then []
                else ["Q2 Impact: " ++ joinSep "; " (qs.map (fun p => p.1 ++ ": " ++ p.2))])
                ++ (if fs.isEmpty then []
                    else ["FY" ++ toString (year + 1) ++ " Guidance: "
                      ++ joinSep "; " (fs.map (fun p => p.1 ++ ": " ++ p.2))]))
          mitigation := "Not specified" })
    ∧ create_comparison_row "X" (Json.obj
        [("quarterly_impact",
          Json.arr [Json.obj [("metric", Json.str "COGS"), ("impact_value", Json.str "+5%")]])]) "p" 2024
      = Except.ok (some
          { company := "<strong>X</strong>", period := "p",
            summary := "Q2 Impact: COGS: +5%", mitigation := "Not specified" }) := by
  constructor
  · have hq : dictGet
        [("quarterly_impact", Json.arr (qs.map mkImpact)),
         ("forward_guidance_impact", Json.arr (fs.map mkImpact))] "quarterly_impact" (Json.arr [])
        = Json.arr (qs.map mkImpact) := rfl
    have hf : dictGet
        [("quarterly_impact", Json.arr (qs.map mkImpact)),
         ("forward_guidance_impact", Json.arr (fs.map mkImpact))] "forward_guidance_impact" (Json.arr [])
        = Json.arr (fs.map mkImpact) := rfl
    have hm : dictGet
        [("quarterly_impact", Json.arr (qs.map mkImpact)),
         ("forward_guidance_impact", Json.arr (fs.map mkImpact))] "mitigation_strategies" (Json.arr [])
        = Json.arr [] := rfl
    have hn : dictGet
        [("quarterly_impact", Json.arr (qs.map mkImpact)),
         ("forward_guidance_impact", Json.arr (fs.map mkImpact))] "company_name" (Json.str "X")
        = Json.str "X" := rfl
    simp only [create_comparison_row, hq, hf, hm, hn, wrap_if_dict, toIterList,
      mapExcept_impact_pairs, jsonTruthy, pyStr, isEmpty_map, List.isEmpty_nil,
      Bool.not_true, Bool.not_false, if_true, if_false, List.isEmpty_cons]
    rcases qs with _ | ⟨q0, qs2⟩ <;> rcases fs with _ | ⟨f0, fs2⟩
    · rfl
    · simp only [List.map, List.isEmpty_cons, Bool.and_false, if_false, List.nil_append]
      rw [pyOrStr_of_ne _ _ (joinSep_ne_empty _ _ _ (str_mid_ne_empty f0.1 ": " f0.2 (by decide)))]
      simp only [joinSep]
      rw [pyOrStr_of_ne _ _ (str_mid_ne_empty ("FY" ++ toString (year + 1)) " Guidance: " _ (by decide))]
      rfl
    · simp only [List.map, List.isEmpty_cons, Bool.false_and, if_false, List.append_nil]
      rw [pyOrStr_of_ne _ _ (joinSep_ne_empty _ _ _ (str_mid_ne_empty q0.1 ": " q0.2 (by decide)))]
      simp only [joinSep]
      rw [pyOrStr_of_ne _ _ (append_ne_empty_left "Q2 Impact: " _ (by decide))]
      rfl
    · simp only [List.map, List.isEmpty_cons, Bool.false_and, if_false, List.cons_append, List.nil_append]
      rw [pyOrStr_of_ne _ _ (joinSep_ne_empty _ _ _ (str_mid_ne_empty q0.1 ": " q0.2 (by decide)))]
      rw [pyOrStr_of_ne _ _ (joinSep_ne_empty _ _ _ (str_mid_ne_empty f0.1 ": " f0.2 (by decide)))]
      simp only [joinSep]
      rw [pyOrStr_of_ne _ _ (str_mid_ne_empty
        ("Q2 Impact: " ++ joinSep "; " ((q0.1 ++ ": " ++ q0.2) :: List.map (fun p => p.1 ++ ": " ++ p.2) qs2))
        "<br>" _ (by decide))]
      rfl
  · rfl

/-- C7: a single mapping in an impact field is coerced to a one-element list
with identical rendering in both the single-company table and the comparison
row, and an absent field is treated as empty; but a field present with an
explicit null raises a TypeError in the comparison loop (None is not
iterable) instead of being treated as an empty sequence, although the
extraction prompt of the source itself says null may be returned. -/
theorem single_mapping_coercion_and_null_crash :
    (∀ (title : String) (kv : String × Json) (l : List (String × Json)),
      display_impact_table title (Json.obj (kv :: l))
        = display_impact_table title (Json.arr [Json.obj (kv :: l)]))
    ∧ create_comparison_row "X" (Json.obj
        [("quarterly_impact", Json.obj [("metric", Json.str "m"), ("impact_value", Json.str "v")])]) "p" 2024
      = create_comparison_row "X" (Json.obj
        [("quarterly_impact", Json.arr [Json.obj [("metric", Json.str "m"), ("impact_value", Json.str "v")]])]) "p" 2024
    ∧ display_impact_table "Quarterly Financial Impact" Json.null
      = Except.ok (placeholder_card "Quarterly Financial Impact")
    ∧ create_comparison_row "X" (Json.obj [("quarterly_impact", Json.null)]) "p" 2024
      = Except.error "TypeError: NoneType object is not iterable" :=
  ⟨fun _ _ _ => rfl, rfl, rfl, rfl⟩

/-- C8: a quarterly or guidance impact field that is null, absent, or an
empty sequence renders as the explicit no-impacts placeholder card in the
on-page report and in the HTML export, never as an empty table and never as
an error; the full single-company render shows the placeholder for both
sections when the fields are missing or null. -/
theorem falsy_impacts_render_placeholder (title : String) :
    display_impact_table title Json.null = Except.ok (placeholder_card title)
    ∧ display_impact_table title (Json.arr []) = Except.ok (placeholder_card title)
    ∧ display_impact_table title (Json.obj []) = Except.ok (placeholder_card title)
    ∧ html_impact_section title Json.null = Except.ok (html_placeholder_card title)
    ∧ html_impact_section title (Json.arr []) = Except.ok (html_placeholder_card title)
    ∧ occursIn "No specific financial impacts from tariffs were mentioned" (placeholder_card title)
    ∧ occursIn "No specific financial impacts from tariffs were mentioned" (html_placeholder_card title)
    ∧ display_tariff_report "C" (Json.obj [("quarterly_impact", Json.null), ("summary", Json.str "s")])
      = Except.ok ["Tariff Impact Analysis: C",
          "<div class=\"report-card\"><h3>Executive Summary</h3><p><strong>Overall Sentiment on Tariffs:</strong> "
            ++ htmlEscape "N/A" ++ "</p><p>" ++ htmlEscape "s" ++ "</p></div>",
          placeholder_card "Quarterly Financial Impact",
          placeholder_card "Forward Guidance Impact"] := by
  refine ⟨rfl, rfl, rfl, rfl, rfl, ?_, ?_, rfl⟩
  · show occursIn "No specific financial impacts from tariffs were mentioned"
      ("<div class=\"report-card\"><h3>" ++ title
        ++ "</h3><p><i>No specific financial impacts from tariffs were mentioned in the document.</i></p></div>")
    exact occursIn_append_right _ _ _ (by decide)
  · show occursIn "No specific financial impacts from tariffs were mentioned"
      ("<div class=\"report-card\"><h3>" ++ title
        ++ "</h3><p><i>No specific financial impacts from tariffs were mentioned.</i></p></div>")
    exact occursIn_append_right _ _ _ (by decide)

/-- C9: in a three-company batch whose second company fails extraction, the
fetch-and-analyze loop still processes all three tickers in order, stores a
null entry for the failing company and the analysis objects for the other
two, and rendering the resulting set completes (a null entry renders as the
warning notice, not a crash). -/
theorem batch_fault_isolation
    (t1 t2 t3 x1 x2 x3 : String) (a1 a3 : Json)
    (transcript : String → Option String) (apiKey : Option String) (service : String → ServiceOutcome)
    (h12 : t1 ≠ t2) (h13 : t1 ≠ t3) (h23 : t2 ≠ t3)
    (ht1 : transcript t1 = some x1) (hx1 : x1.isEmpty = false)
    (ht2 : transcript t2 = some x2) (hx2 : x2.isEmpty = false)
    (ht3 : transcript t3 = some x3) (hx3 : x3.isEmpty = false)
    (ha1 : (analyze_text_with_deepseek apiKey x1 service).result = some a1)
    (ha2 : (analyze_text_with_deepseek apiKey x2 service).result = none)
    (ha3 : (analyze_text_with_deepseek apiKey x3 service).result = some a3)
    (hr1 : (display_tariff_report t1 a1).isOk = true)
    (hr3 : (display_tariff_report t3 a3).isOk = true) :
    fetch_and_analyze_loop [t1, t2, t3] transcript apiKey service = [(t1, a1), (t2, Json.null), (t3, a3)]
    ∧ (render_all [(t1, a1), (t2, Json.null), (t3, a3)]).isOk = true := by
  constructor
  · simp only [fetch_and_analyze_loop, List.foldl, ht1, ht2, ht3, hx1, hx2, hx3,
      ha1, ha2, ha3, optToJson, store]
    simp [h12, h13, h23, Ne.symm h12, Ne.symm h13, Ne.symm h23]
  · cases hd1 : display_tariff_report t1 a1 with
    | error e => rw [hd1] at hr1; simp [Except.isOk, Except.toBool] at hr1
    | ok v1 =>
        cases hd3 : display_tariff_report t3 a3 with
        | error e => rw [hd3] at hr3; simp [Except.isOk, Except.toBool] at hr3
        | ok v3 =>
            simp only [render_all, hd1, hd3]
            rfl

set_option maxRecDepth 4096 in
/-- C9 witness: a concrete three-ticker batch where the extraction service
fails (request error) exactly on the second transcript. -/
theorem batch_fault_isolation_witness :
    fetch_and_analyze_loop ["AAPL", "MSFT", "GOOG"]
        (fun t => if t = "AAPL" then some "alpha text" else
          if t = "MSFT" then some "beta text" else some "gamma text")
        (some "key")
        (fun p => if p = deepseek_prompt "beta text" then ServiceOutcome.requestError "timeout"
          else ServiceOutcome.success (Json.obj [("summary", Json.str "Tariffs noted.")]))
      = [("AAPL", Json.obj [("summary", Json.str "Tariffs noted.")]),
         ("MSFT", Json.null),
         ("GOOG", Json.obj [("summary", Json.str "Tariffs noted.")])]
    ∧ (render_all [("AAPL", Json.obj [("summary", Json.str "Tariffs noted.")]),
         ("MSFT", Json.null),
         ("GOOG", Json.obj [("summary", Json.str "Tariffs noted.")])]).isOk = true :=
  batch_fault_isolation "AAPL" "MSFT" "GOOG" "alpha text" "beta text" "gamma text"
    (Json.obj [("summary", Json.str "Tariffs noted.")])
    (Json.obj [("summary", Json.str "Tariffs noted.")])
    (fun t => if t = "AAPL" then some "alpha text" else
      if t = "MSFT" then some "beta text" else some "gamma text")
    (some "key")
    (fun p => if p = deepseek_prompt "beta text" then ServiceOutcome.requestError "timeout"
      else ServiceOutcome.success (Json.obj [("summary", Json.str "Tariffs noted.")]))
    (by decide) (by decide) (by decide)
    rfl rfl rfl rfl rfl rfl
    rfl rfl rfl
    (by decide) (by decide)

/-- C10: an empty or whitespace-only input text makes the extraction client
return None with no network request issued, and a request is only ever
issued for a text holding at least one non-whitespace character. -/
theorem blank_text_skips_service_call (apiKey : Option String) (text : String)
    (service : String → ServiceOutcome) :
    (text.toList.all isPySpace = true →
      analyze_text_with_deepseek apiKey text service = { result := none, requested := false })
    ∧ ((analyze_text_with_deepseek apiKey text service).requested = true →
      text.toList.any (fun c => !isPySpace c) = true) := by
  constructor
  · exact analyze_all_space apiKey text service
  · intro hreq
    cases hall : text.toList.all isPySpace with
    | false =>
        simpa [List.all_eq_not_any_not] using hall
    | true =>
        rw [analyze_all_space apiKey text service hall] at hreq
        simp at hreq

/-- C10 witness: a whitespace-only text returns no analysis and issues no
request even with a valid credential and a service that would succeed. -/
theorem blank_text_skips_service_call_witness :
    analyze_text_with_deepseek (some "key") " \n\t "
        (fun _ => ServiceOutcome.success (Json.obj [("summary", Json.str "s")]))
      = { result := none, requested := false } :=
  (blank_text_skips_service_call (some "key") " \n\t "
    (fun _ => ServiceOutcome.success (Json.obj [("summary", Json.str "s")]))).1 (by decide)
